import Mathlib

set_option maxHeartbeats 1000000

namespace MakanSini

/-! Shallow embedding of the MakanSini restaurant-recommendation chatbot
(repository `makanSIni-chatbot`), centred on the V3 engine in `src/app_3.py`.
A pandas DataFrame is modelled as a list of records; a missing value (NaN)
is `Option.none`; Python floats are modelled as exact rationals (`ℚ`).
Text matching in the source is ASCII throughout, so `\w`, `\s` and
`str.lower()` are modelled on their ASCII fragments. -/

/-- Word character of Python regex `\w` (ASCII fragment): letter, digit or underscore. -/
def isWordChar (c : Char) : Bool := c.isAlphanum || c = '_'

/-- Whitespace of Python regex `\s` and `str.strip()` (ASCII fragment). -/
def isSpaceChar (c : Char) : Bool := c = ' ' || c = '\t' || c = '\n' || c = '\r'

/-- Python `str.lower()` (ASCII fragment), mapping each character to lower case. -/
def lower (s : String) : String := ⟨s.data.map Char.toLower⟩

/-- Substring test on character lists: does `pat` occur contiguously inside `hay`?
Models the Python `pat in hay` test and `re.search` of a literal pattern. -/
def containsSub (hay pat : List Char) : Bool :=
  match hay with
  | [] => pat.isEmpty
  | _ :: rest => pat.isPrefixOf hay || containsSub rest pat

/-- Python `pat in hay` on strings (case-sensitive). -/
def strContains (hay pat : String) : Bool := containsSub hay.data pat.data

/-- Case-insensitive containment: pandas `Series.str.contains(pat, case=False)`
applied to one cell (for the literal, regex-metacharacter-free patterns the
source uses). -/
def containsCI (hay pat : String) : Bool := strContains (lower hay) (lower pat)

/-- Pandas `astype(str)` on one cell: a missing value (NaN) renders as `"nan"`. -/
def asStr (x : Option String) : String := x.getD "nan"

/-- One row of the restaurant catalog after `load_catalog`'s column renaming
(`app_3.py` lines 33-46): canonical field names, numeric columns coerced. -/
structure CatalogEntry where
  name : Option String := none
  spend_range : Option String := none
  min_spend : Option ℚ := none
  max_spend : Option ℚ := none
  dining_tag : Option String := none
  halal : Option String := none
  cuisine : Option String := none
  hours : Option String := none
  days : Option String := none
  travel_mins : Option ℚ := none
  location : Option String := none
  rating : Option ℚ := none
deriving DecidableEq, Repr

/-- The preferences dictionary consumed by `score_restaurants` (`app_3.py`
lines 82-89). A key read with `.get` that is absent or `None` is `none`. -/
structure PreferenceSet where
  cuisine : Option String := none
  cuisines : Option (List String) := none
  meal_type : Option String := none
  halal_pref : Option String := none
  location_pref : Option String := none
  max_budget : Option ℚ := none
  budget_level : Option String := none
  max_travel : Option ℚ := none
deriving DecidableEq, Repr

/-- A catalog row together with the per-aspect score columns and the total
`score` column added by `score_restaurants` (`app_3.py` lines 70-79, 182-190). -/
structure ScoredEntry where
  entry : CatalogEntry
  score_cuisine : ℚ
  score_budget : ℚ
  score_travel : ℚ
  score_meal : ℚ
  score_halal : ℚ
  score_location : ℚ
  score_rating : ℚ
  score : ℚ
deriving DecidableEq, Repr

/-- Result of `score_restaurants`: on an empty input DataFrame the function
returns it unchanged (`app_3.py` lines 66-67), so the result carries no score
columns at all; otherwise it returns scored rows. -/
inductive ScoreOutput
  | unscored (rows : List CatalogEntry)
  | scored (rows : List ScoredEntry)
deriving DecidableEq, Repr

/-- Availability filter (`app_3.py` lines 58-60): keep a row iff its `days`
text contains the current day name case-insensitively. The source computes
the day via `datetime.today().strftime("%A")` inside the function; that
system-clock read is modelled as the explicit `today_name` argument. -/
def filter_open_today (today_name : String) (df : List CatalogEntry) : List CatalogEntry :=
  df.filter (fun e => containsCI (asStr e.days) today_name)

/-- Cuisine aspect (`app_3.py` lines 96-103): if the `cuisines` list is
non-empty, +40 when the row's cuisine contains any of them (the source joins
the escaped names into a regex alternation, i.e. an any-substring test);
otherwise, if the single `cuisine` string is non-empty, +40 on containment. -/
def score_cuisine_of (preferences : PreferenceSet) (e : CatalogEntry) : ℚ :=
  let cuisineP := preferences.cuisine.getD ""
  let cuisine_list := preferences.cuisines.getD []
  if cuisine_list ≠ [] then
    if cuisine_list.any (fun c => containsCI (asStr e.cuisine) c) then 40 else 0
  else if cuisineP ≠ "" then
    if containsCI (asStr e.cuisine) cuisineP then 40 else 0
  else 0

/-- Budget aspect (`app_3.py` lines 106-135): rows with both spends known are
tiered (+30 fully in budget, +15 partially, -10 over); rows with an unknown
spend are untouched. When `budget_level == "expensive"`, very cheap rows
(max spend at most half the budget) get -20 and mid-price rows (at most 0.8
of the budget, not very cheap) get -5, in addition to the tier. -/
def score_budget_of (preferences : PreferenceSet) (e : CatalogEntry) : ℚ :=
  match preferences.max_budget with
  | none => 0
  | some max_budget =>
    match e.min_spend, e.max_spend with
    | some mn, some mx =>
      let tier : ℚ := if mx ≤ max_budget then 30 else if mn ≤ max_budget then 15 else -10
      let under_penalty : ℚ :=
        if preferences.budget_level = some "expensive" then
          if mx ≤ max_budget * 0.5 then -20
          else if mx ≤ max_budget * 0.8 then -5
          else 0
        else 0
      tier + under_penalty
    | _, _ => 0

/-- Meal-type aspect (`app_3.py` lines 138-140): +15 when the preference is
set, is not "any", and the row's dining tag contains it case-insensitively. -/
def score_meal_of (preferences : PreferenceSet) (e : CatalogEntry) : ℚ :=
  let meal_type := preferences.meal_type.getD ""
  if meal_type ≠ "" ∧ lower meal_type ≠ "any" then
    if containsCI (asStr e.dining_tag) meal_type then 15 else 0
  else 0

/-- Travel aspect (`app_3.py` lines 143-144): +10 when the row's travel time
is known and at most the limit (`Series.le` is false on NaN). -/
def score_travel_of (preferences : PreferenceSet) (e : CatalogEntry) : ℚ :=
  match preferences.max_travel with
  | none => 0
  | some max_travel =>
    match e.travel_mins with
    | some t => if t ≤ max_travel then 10 else 0
    | none => 0

/-- Halal aspect (`app_3.py` lines 147-151): only when the preference string
lower-cases to exactly "halal" does the row get +10 (halal text contains
"yes") or -20 (it does not). Note the parser only ever produces the values
"Halal only" and "Doesn\x27t matter" for this preference. -/
def score_halal_of (preferences : PreferenceSet) (e : CatalogEntry) : ℚ :=
  let halal_pref := preferences.halal_pref.getD ""
  if halal_pref ≠ "" then
    if lower halal_pref = "halal" then
      if strContains (lower (asStr e.halal)) "yes" then 10 else -20
    else 0
  else 0

/-- Location aspect (`app_3.py` lines 154-176): rows containing "Inside UTP"
(case-insensitive) are inside; "Outside UTP" preference rewards outside rows
+20 and penalises inside rows -10; "Inside UTP" preference the reverse; any
other non-"any" preference gives +30 on containment. -/
def score_location_of (preferences : PreferenceSet) (e : CatalogEntry) : ℚ :=
  let location_pref := preferences.location_pref.getD ""
  if location_pref ≠ "" ∧ lower location_pref ≠ "any" then
    let inside := containsCI (asStr e.location) "Inside UTP"
    if location_pref = "Outside UTP" then
      if inside then -10 else 20
    else if location_pref = "Inside UTP" then
      if inside then 20 else -10
    else
      if containsCI (asStr e.location) location_pref then 30 else 0
  else 0

/-- Rating aspect (`app_3.py` line 179): `rating.fillna(0) * 2`. -/
def score_rating_of (e : CatalogEntry) : ℚ := e.rating.getD 0 * 2

/-- Per-row scoring: the seven aspect columns of `app_3.py` lines 95-179 and
the total `score` column, which the source assigns as their sum (lines
182-190). -/
def scoreRow (preferences : PreferenceSet) (e : CatalogEntry) : ScoredEntry :=
  let c := score_cuisine_of preferences e
  let b := score_budget_of preferences e
  let tv := score_travel_of preferences e
  let m := score_meal_of preferences e
  let h := score_halal_of preferences e
  let lo := score_location_of preferences e
  let ra := score_rating_of e
  { entry := e, score_cuisine := c, score_budget := b, score_travel := tv,
    score_meal := m, score_halal := h, score_location := lo, score_rating := ra,
    score := c + b + tv + m + h + lo + ra }

/-- The sort of `app_3.py` line 192: `df.sort_values("score", ascending=False)`.
Pandas sorts ascending by the single key and reverses the resulting indexer
(`nargsort`). Numpy's default sort is unstable introsort in general, so the
program does not specify the relative order of equal-score rows; only below
16 elements (numpy's insertion-sort cutoff) is the ascending sort stable.
The model must be a function, so it fixes one concrete determinization:
a stable ascending sort, reversed. Theorems about the engine's ordering use
only the properties independent of the tie order - sortedness by descending
score and being a permutation of the input - and concrete evaluations stay
below 16 rows, where the determinization agrees with the program. The
`score` column is never NaN (every aspect column is filled). -/
def sort_values_score_desc (rows : List ScoredEntry) : List ScoredEntry :=
  (rows.mergeSort (fun a b => a.score ≤ b.score)).reverse

/-- The V3 scoring engine `score_restaurants` (`app_3.py` lines 64-199).
An empty input is returned unchanged before anything else happens (lines
66-67). Otherwise the rows are optionally filtered to those open today,
scored per aspect, summed and sorted by descending score. `debug_mode` is
omitted: the source returns the same DataFrame on both branches (lines
194-199). The source's internal system-clock read is the `today_name`
argument (see `filter_open_today`). -/
def score_restaurants (df : List CatalogEntry) (preferences : PreferenceSet)
    (only_open_today : Bool) (today_name : String) : ScoreOutput :=
  if df.isEmpty then ScoreOutput.unscored df
  else
    ScoreOutput.scored (sort_values_score_desc
      ((if only_open_today then filter_open_today today_name df else df).map
        (scoreRow preferences)))

/-- Threshold used by the result selection in `main` (`app_3.py` line 650). -/
def THRESHOLD_DIFF : ℚ := 15

/-- Result selection from `main` (`app_3.py` lines 636-659): the empty case is
handled by the guard at lines 636-643 (no suggestions are produced); otherwise
`top_score` is the first (highest) score of the ranked rows, rows within
`THRESHOLD_DIFF` of it are kept, capped at 3, with a fallback to the single
top row if that selection were empty. -/
def selectResults : List ScoredEntry → List ScoredEntry
  | [] => []
  | top :: rest =>
    let close_enough := (top :: rest).filter (fun r => top.score - THRESHOLD_DIFF ≤ r.score)
    let results_to_show := close_enough.take 3
    if results_to_show.isEmpty then (top :: rest).take 1 else results_to_show

/-- One raw CSV row as handed to `load_catalog` by `pandas.read_csv`, after
column renaming: every cell is text or missing (`none` models NaN, which
`read_csv` produces for empty cells). -/
structure RawRow where
  name : Option String := none
  spend_range : Option String := none
  min_spend : Option String := none
  max_spend : Option String := none
  dining_tag : Option String := none
  halal : Option String := none
  cuisine : Option String := none
  hours : Option String := none
  days : Option String := none
  travel_mins : Option String := none
  location : Option String := none
  rating : Option String := none
deriving DecidableEq, Repr

/-- Value of a digit string, most significant first. -/
def digitsToNat (ds : List Char) : Nat :=
  ds.foldl (fun n c => n * 10 + (c.toNat - '0'.toNat)) 0

/-- Value of `<intpart>.<fracpart>` as a rational. -/
def decimalValue (ip fp : List Char) : ℚ :=
  (digitsToNat ip : ℚ) + (digitsToNat fp : ℚ) / ((10 : ℚ) ^ fp.length)

/-- Python `str.strip()`: drop leading and trailing whitespace. -/
def stripSpaces (cs : List Char) : List Char :=
  ((cs.dropWhile isSpaceChar).reverse.dropWhile isSpaceChar).reverse

/-- Unsigned numeric literal: digits, optionally a dot and more digits, with
at least one digit present in total. -/
def parseUnsigned (cs : List Char) : Option ℚ :=
  let ip := cs.takeWhile Char.isDigit
  let rest := cs.dropWhile Char.isDigit
  match rest with
  | [] => if ip.isEmpty then none else some (digitsToNat ip : ℚ)
  | '.' :: r2 =>
    let fp := r2.takeWhile Char.isDigit
    let rest2 := r2.dropWhile Char.isDigit
    if rest2.isEmpty ∧ ¬(ip.isEmpty ∧ fp.isEmpty) then some (decimalValue ip fp)
    else none
  | _ => none

/-- Numeric coercion of one cell, `pd.to_numeric(col, errors="coerce")`
(`app_3.py` lines 49-50): a missing cell stays missing, a parseable number
(optional sign, integer or decimal form; scientific notation is not needed by
any claim and not modelled) becomes its value, anything else becomes missing -
never zero and never an error. -/
def to_numeric (cell : Option String) : Option ℚ :=
  match cell with
  | none => none
  | some s =>
    match stripSpaces s.data with
    | '-' :: cs => (parseUnsigned cs).map (fun q => -q)
    | '+' :: cs => parseUnsigned cs
    | cs => parseUnsigned cs

/-- Numeric coercion of one renamed row (`app_3.py` lines 49-50): the four
numeric columns are coerced, text columns are untouched. -/
def coerceRow (r : RawRow) : CatalogEntry :=
  { name := r.name, spend_range := r.spend_range,
    min_spend := to_numeric r.min_spend, max_spend := to_numeric r.max_spend,
    dining_tag := r.dining_tag, halal := r.halal, cuisine := r.cuisine,
    hours := r.hours, days := r.days, travel_mins := to_numeric r.travel_mins,
    location := r.location, rating := to_numeric r.rating }

/-- Catalog loader (`app_3.py` lines 29-54) after `read_csv` and renaming:
coerce the numeric columns, then `dropna(subset=["name"])` - drop exactly the
rows whose `name` cell is missing. -/
def load_catalog (rows : List RawRow) : List CatalogEntry :=
  (rows.map coerceRow).filter (fun e => e.name.isSome)

/-! Preference-parsing layer (`app_3.py` lines 206-498). Python dictionaries
keep insertion order, so each synonym dictionary is modelled as a list of
(canonical value, trigger phrases) pairs in source order. All parsing is done
on the lower-cased input text. -/

/-- Location synonym dictionary (`app_3.py` lines 217-234). -/
def LOCATION_SYNONYMS : List (String × List String) :=
  [("Inside UTP", ["inside utp", "dalam utp", "in utp", "within utp",
      "dalam kampus", "inside campus", "inside"]),
   ("Tronoh", ["tronoh", "trono", "teronoh"]),
   ("Bandar Universiti", ["bandar universiti", "bandar uni", "bdr uni", "bu", "lotus"]),
   ("Outside UTP", ["town", "luar", "outside", "out"]),
   ("SIBC", ["sibc", "si", "seri iskandar", "billion"])]

/-- Budget level synonym dictionary (`app_3.py` lines 264-278). -/
def BUDGET_SYNONYMS : List (String × List String) :=
  [("cheap", ["cheap", "murah", "bajet", "budget sikit", "taknak mahal",
      "tak nak mahal", "not expensive", "jimat", "low budget", "affordable",
      "ekonomi", "rahmah"]),
   ("medium", ["medium", "average", "sederhana", "mid-range", "mid range",
      "normal price", "biasa", "reasonable"]),
   ("expensive", ["expensive", "mahal", "high end", "mahal sikit", "premium",
      "luxury", "boujee"])]

/-- Representative RM value per budget level (`app_3.py` lines 280-284). -/
def BUDGET_VALUES : List (String × ℚ) :=
  [("cheap", 10), ("medium", 15), ("expensive", 25)]

/-- Python dictionary indexing `BUDGET_VALUES[category]` (the category always
comes from `BUDGET_SYNONYMS`, so the default is never reached). -/
def budgetValue (level : String) : ℚ := (BUDGET_VALUES.lookup level).getD 0

/-- Meal-type synonym dictionary (`app_3.py` lines 447-452). -/
def MEALTYPE_SYNONYMS : List (String × List String) :=
  [("Breakfast", ["pagi", "sarapan", "bfast", "breakfast", "breakie"]),
   ("Lunch", ["tengahari", "lunch", "afternoon", "noon"]),
   ("Tea Time", ["petang", "ptg", "tea", "tea time", "hi tea", "hi-tea", "snack"]),
   ("Dinner", ["malam", "mlm", "dinner", "supper", "night"])]

/-- Cuisine synonym dictionary (`app_3.py` lines 341-417). -/
def CUISINE_SYNONYMS : List (String × List String) :=
  [("Malay", ["melayu", "masakan melayu", "nasi lemak", "lauk melayu",
      "lauk kampung", "kampung style", "masakan kampung", "ayam masak merah",
      "asam pedas", "nasi goreng kampung", "ikan keli", "ikan bawal", "sambal"]),
   ("Chinese", ["cina", "chinese", "char kuey teow", "ckt", "dim sum", "wantan",
      "wonton", "claypot", "fried rice chinese", "kongfu", "kung fu"]),
   ("Mamak", ["mamak", "nasi kandar", "roti canai", "roti telur", "roti tampal",
      "maggi goreng", "mee goreng mamak", "teh tarik", "nasi goreng mamak"]),
   ("Indian", ["indian", "india", "biryani", "briyani", "tandoori", "naan",
      "butter chicken", "masala", "dhal"]),
   ("Korean", ["korean", "korea", "kimchi", "ramyeon", "ramyun", "tteokbokki",
      "kimbap", "jajangmyeon", "buldak"]),
   ("Japanese", ["japanese", "japan", "jepun", "sushi", "ramen", "donburi",
      "bento", "tempura", "udon"]),
   ("Fast Food", ["kfc", "mcd", "mcD", "burger king", "a&w", "texas",
      "marrybrown", "pizza", "dominos", "subway", "fast food", "burger"]),
   ("Nasi Campur", ["nasi campur", "lauk campur", "mixed rice", "economy rice",
      "kedai campur", "nasi berlauk"]),
   ("Thailand", ["thai", "tomyam", "tom yam", "paprik", "pad kra pao",
      "thai food", "kerabu maggi", "somtam"]),
   ("Arabic", ["arab", "arabic", "mandy", "mandi", "kabsah", "kebab",
      "shawarma", "hummus"]),
   ("Dessert", ["dessert", "aiskrim", "ice cream", "cendol", "bingsu", "kek",
      "cake", "brownies", "pancake"]),
   ("Beverage", ["drink", "beverage", "minum", "coffee", "kopi", "tea", "teh",
      "milkshake", "smoothie", "frappe", "boba", "bubble tea", "ngopi"]),
   ("Western", ["western", "chicken chop", "lamb chop", "steak", "fries",
      "fish and chips", "pasta", "spaghetti", "carbonara", "bolognese",
      "lasagna", "grilled chicken"]),
   ("Indonesian", ["indo", "gepuk", "bakso", "penyet", "nasi padang"])]

/-- The `for category, syns in DICT.items(): if any(s in t for s in syns):
return category` loop shared by the parsers: first category, in dictionary
order, with any trigger phrase occurring as a substring of `t`. -/
def synLookup (dict : List (String × List String)) (t : String) : Option String :=
  match dict with
  | [] => none
  | (cat, syns) :: rest =>
    if syns.any (fun s => strContains t s) then some cat else synLookup rest t

/-- First alternative of a regex alternation that matches as a prefix of `cs`,
returning the remainder. For the keyword sets used here at most one
alternative can match at a given position (none is a prefix of another), so
committing to the first is exact. -/
def matchAlt (alts : List String) (cs : List Char) : Option (List Char) :=
  match alts with
  | [] => none
  | a :: rest =>
    if a.data.isPrefixOf cs then some (cs.drop a.data.length) else matchAlt rest cs

/-- Consume `\s*(rm)?\s*`. The consumption is deterministic: if "rm" follows
the whitespace but the rest fails, the backtracked alternative (not consuming
"rm") immediately fails too, because 'r' is not a digit. -/
def skipSpacesRm (cs : List Char) : List Char :=
  match cs.dropWhile isSpaceChar with
  | 'r' :: 'm' :: rest => rest.dropWhile isSpaceChar
  | a => a

/-- Candidates of `\d+(?:\.\d+)?` at the head of `cs`, as (value, remainder)
pairs in regex backtracking order: the full decimal first, then the integer
part alone. Shorter digit runs are never viable because the following
character is a digit, which fails the `\b` or literal test that follows in
every pattern using this, so they are omitted. -/
def numberCandidates (cs : List Char) : List (ℚ × List Char) :=
  let ds := cs.takeWhile Char.isDigit
  let rest := cs.dropWhile Char.isDigit
  if ds.isEmpty then []
  else
    match rest with
    | '.' :: r2 =>
      let fs := r2.takeWhile Char.isDigit
      let rest2 := r2.dropWhile Char.isDigit
      if fs.isEmpty then [((digitsToNat ds : ℚ), rest)]
      else [(decimalValue ds fs, rest2), ((digitsToNat ds : ℚ), rest)]
    | _ => [((digitsToNat ds : ℚ), rest)]

/-- Word-boundary `\b` after a match ending in a word character: the next
character is absent or not a word character. -/
def boundaryAfter (rest : List Char) : Bool :=
  match rest with
  | [] => true
  | c :: _ => !isWordChar c

/-- The lookahead body `\s*(min|mins|minute|minutes)`: every alternative
begins with "min" and the shortest alternative is "min" itself, so the
lookahead matches iff "min" follows optional whitespace. -/
def minutesFollow (rest : List Char) : Bool :=
  ("min".data).isPrefixOf (rest.dropWhile isSpaceChar)

/-- Leftmost search of `rm\s*(\d+)` (`app_3.py` line 309): scan positions left
to right; on "rm" followed by optional whitespace and at least one digit,
return the greedy digit run. -/
def rmSearch : List Char → Option ℚ
  | [] => none
  | c :: rest =>
    if c = 'r' ∧ rest.head? = some 'm' then
      let after := rest.tail.dropWhile isSpaceChar
      let ds := after.takeWhile Char.isDigit
      if ds.isEmpty then rmSearch rest else some (digitsToNat ds : ℚ)
    else rmSearch rest

/-- Leftmost search of
`(under|below|bawah|max|budget)\s*(rm)?\s*(\d+(?:\.\d+)?)\b(?!\s*(min|mins|minute|minutes))`
(`app_3.py` lines 313-314): keyword, optional "rm", a number with word
boundary after it, not followed by a minutes word. Number candidates are
tried in backtracking order. -/
def nearbySearch : List Char → Option ℚ
  | [] => none
  | c :: rest =>
    match matchAlt ["under", "below", "bawah", "max", "budget"] (c :: rest) with
    | some after =>
      match (numberCandidates (skipSpacesRm after)).find?
          (fun vr => boundaryAfter vr.2 && !minutesFollow vr.2) with
      | some vr => some vr.1
      | none => nearbySearch rest
    | none => nearbySearch rest

/-- Leftmost search of
`(bawah|taknak lebih|tak nak lebih|jangan lebih|around|sekitar)\s*(rm)?\s*(\d+)`
(`app_3.py` line 318): second proximity pattern, integer only, no boundary
and no minutes lookahead. -/
def malaySearch : List Char → Option ℚ
  | [] => none
  | c :: rest =>
    match matchAlt ["bawah", "taknak lebih", "tak nak lebih", "jangan lebih",
        "around", "sekitar"] (c :: rest) with
    | some after =>
      let ds := (skipSpacesRm after).takeWhile Char.isDigit
      if ds.isEmpty then malaySearch rest else some (digitsToNat ds : ℚ)
    | none => malaySearch rest

/-- The pattern `\b(\d+(?:\.\d+)?)\b\s*(ringgit)\b` anchored at `cs` (the
leading boundary is checked by the caller). -/
def ringgitMatchAt (cs : List Char) : Option ℚ :=
  ((numberCandidates cs).find? (fun vr =>
    boundaryAfter vr.2 &&
      (let r := vr.2.dropWhile isSpaceChar
       ("ringgit".data).isPrefixOf r && boundaryAfter (r.drop ("ringgit".data).length)))).map
    (fun vr => vr.1)

/-- Leftmost scan for `ringgitMatchAt`, tracking the previous character for
the leading `\b` (a digit starts the pattern, so the boundary holds iff the
previous character is absent or a non-word character). -/
def ringgitSearchAux : Option Char → List Char → Option ℚ
  | _, [] => none
  | prev, c :: rest =>
    if c.isDigit && (match prev with | none => true | some pc => !isWordChar pc) then
      match ringgitMatchAt (c :: rest) with
      | some v => some v
      | none => ringgitSearchAux (some c) rest
    else ringgitSearchAux (some c) rest

/-- Leftmost search of `\b(\d+(?:\.\d+)?)\b\s*(ringgit)\b` (`app_3.py`
line 322). -/
def ringgitSearch (cs : List Char) : Option ℚ := ringgitSearchAux none cs

/-- Budget ceiling extraction `pick_budget` (`app_3.py` lines 302-326):
budget-level synonym first, then the four regex searches in source order,
else None. -/
def pick_budget (text : String) : Option ℚ :=
  let t := lower text
  match synLookup BUDGET_SYNONYMS t with
  | some category => some (budgetValue category)
  | none =>
    match rmSearch t.data with
    | some v => some v
    | none =>
      match nearbySearch t.data with
      | some v => some v
      | none =>
        match malaySearch t.data with
        | some v => some v
        | none => ringgitSearch t.data

/-- Leftmost digit run of the text: the regex
`(?:rm\s*|budget\s*|under\s*|below\s*)?(\d+)` of `app_3.py` line 293 captures
the leftmost maximal digit run whatever the optional prefix does. -/
def firstNumber : List Char → Option Nat
  | [] => none
  | c :: rest =>
    if c.isDigit then some (digitsToNat ((c :: rest).takeWhile Char.isDigit))
    else firstNumber rest

/-- Budget level extraction `pick_budget_level` (`app_3.py` lines 287-299):
synonym lookup, else "expensive" if a number at least 30 appears, else None. -/
def pick_budget_level (text : String) : Option String :=
  let t := lower text
  match synLookup BUDGET_SYNONYMS t with
  | some level => some level
  | none =>
    match firstNumber t.data with
    | some n => if (30 : ℚ) ≤ (n : ℚ) then some "expensive" else none
    | none => none

/-- Travel extraction `pick_travel` (`app_3.py` lines 477-480): leftmost
`(\d+)\s*(min|mins|minute)`; the first alternative "min" is a prefix of the
others, so the unit test is a "min" prefix test. Shorter digit runs fail
because a digit follows where "min" is required. -/
def travelSearch : List Char → Option ℚ
  | [] => none
  | c :: rest =>
    if c.isDigit then
      let ds := (c :: rest).takeWhile Char.isDigit
      let after := ((c :: rest).dropWhile Char.isDigit).dropWhile isSpaceChar
      if ("min".data).isPrefixOf after then some (digitsToNat ds : ℚ)
      else travelSearch rest
    else travelSearch rest

/-- Travel time preference (`app_3.py` lines 477-480). -/
def pick_travel (text : String) : Option ℚ := travelSearch (lower text).data

/-- Halal preference `pick_halal_pref` (`app_3.py` lines 468-471): the
substring "halal" anywhere means "Halal only". -/
def pick_halal_pref (text : String) : String :=
  if strContains (lower text) "halal" then "Halal only" else "Doesn\x27t matter"

/-- Meal type `pick_meal_type` (`app_3.py` lines 455-462). -/
def pick_meal_type (text : String) : String :=
  (synLookup MEALTYPE_SYNONYMS (lower text)).getD "Any"

/-- One pass of `re.sub(r"\b<pat>\b", repl, text)` as used by
`normalize_location_text`: scan left to right over the original characters;
where `pat` matches with word boundaries on both sides, emit `repl` and
continue after the match (re.sub does not rescan a replacement within one
call), otherwise emit the character. Every synonym starts and ends with a
word character, so each `\b` holds iff the neighbouring character is absent
or a non-word character; `prev` carries the previous original character.
`fuel` bounds the recursion and is called with the text length, which
suffices since every step consumes at least one character. -/
def subWordBound (pat repl : List Char) (prev : Option Char) (cs : List Char)
    (fuel : Nat) : List Char :=
  match fuel with
  | 0 => cs
  | fuel + 1 =>
    match cs with
    | [] => []
    | c :: rest =>
      if pat.isPrefixOf (c :: rest) &&
          (match prev with | none => true | some pc => !isWordChar pc) &&
          boundaryAfter ((c :: rest).drop pat.length) then
        repl ++ subWordBound pat repl (some (pat.getLastD c)) ((c :: rest).drop pat.length) fuel
      else c :: subWordBound pat repl (some c) rest fuel

/-- Apply one word-bounded substitution over a whole text. -/
def applySub (t pat repl : List Char) : List Char :=
  subWordBound pat repl none t t.length

/-- Location text normalisation `normalize_location_text` (`app_3.py` lines
237-244): for each canonical area, in dictionary order, replace each of its
synonym phrases (word-bounded) by the lower-cased canonical name; finally
lower-case again. -/
def normalize_location_text (text : String) : String :=
  let start := (lower text).data
  let result := LOCATION_SYNONYMS.foldl
    (fun acc pair => pair.2.foldl
      (fun acc2 s => applySub acc2 s.data (lower pair.1).data) acc)
    start
  lower ⟨result⟩

/-- Modelled from the spec: the catalog CSV ("Survey on Restaurant around
Seri Iskandar (Responses) - Clean Version.csv") is not part of the source
tree, so `get_known_locations` - the sorted distinct, trimmed, non-empty
location values of the catalog (`app_3.py` lines 207-214) - is modelled as
the sorted canonical area names of the specification (the location synonym
dictionary keys, spec section 4.3). -/
def get_known_locations : List String :=
  ["Bandar Universiti", "Inside UTP", "Outside UTP", "SIBC", "Tronoh"]

/-- Strip punctuation, `re.sub(r"[^\w\s]", " ", t)` (`app_3.py` line 249):
every character that is neither a word character nor whitespace becomes a
space. -/
def stripPunct (cs : List Char) : List Char :=
  cs.map (fun c => if isWordChar c || isSpaceChar c then c else ' ')

/-- The known-location loop of `pick_location` (`app_3.py` lines 254-256):
first location, in sorted order, whose lower-cased name is non-empty and
occurs in the text. -/
def findKnownLocation (locs : List String) (t : String) : Option String :=
  match locs with
  | [] => none
  | loc :: rest =>
    if loc ≠ "" ∧ strContains t (lower loc) then some loc
    else findKnownLocation rest t

/-- Location preference `pick_location` (`app_3.py` lines 247-258): normalise
synonyms, strip punctuation, short-circuit on "outside utp", else first known
location contained in the text, else "Any". -/
def pick_location (text : String) : String :=
  let t := normalize_location_text text
  let t_no_punc : String := ⟨stripPunct t.data⟩
  if strContains t_no_punc "outside utp" then "Outside UTP"
  else (findKnownLocation get_known_locations t_no_punc).getD "Any"

/-- Modelled from the spec: the catalog CSV is not part of the source tree,
so `get_known_cuisines` - the sorted distinct cuisine fragments of the
catalog split on separators (`app_3.py` lines 332-338) - is modelled as the
sorted canonical cuisine names of the specification (the cuisine synonym
dictionary keys, spec section 4.3). -/
def get_known_cuisines : List String :=
  ["Arabic", "Beverage", "Chinese", "Dessert", "Fast Food", "Indian",
   "Indonesian", "Japanese", "Korean", "Malay", "Mamak", "Nasi Campur",
   "Thailand", "Western"]

/-- Order-preserving de-duplication keeping the first occurrence
(`app_3.py` lines 434-439). -/
def dedupeKeepFirst (seen : List String) : List String → List String
  | [] => []
  | c :: rest =>
    if seen.contains c then dedupeKeepFirst seen rest
    else c :: dedupeKeepFirst (c :: seen) rest

/-- Cuisine extraction `pick_cuisine` (`app_3.py` lines 421-441): every
synonym category triggered by the text, in dictionary order, then every known
catalog cuisine contained in the text, de-duplicated keeping first
occurrences; may be empty. -/
def pick_cuisine (text : String) : List String :=
  let t := lower text
  let c_intext :=
    ((CUISINE_SYNONYMS.filter (fun pair => pair.2.any (fun cat => strContains t cat))).map
      Prod.fst) ++
    (get_known_cuisines.filter (fun c => lower c ≠ "" ∧ strContains t (lower c)))
  dedupeKeepFirst [] c_intext

/-- One-shot parser `parse_one_shot` (`app_3.py` lines 486-497): package all
extractions; `cuisine` is the first extracted cuisine or None. -/
def parse_one_shot (t : String) : PreferenceSet :=
  let cuisines := pick_cuisine t
  { cuisine := cuisines.head?,
    cuisines := some cuisines,
    max_budget := pick_budget t,
    budget_level := pick_budget_level t,
    meal_type := some (pick_meal_type t),
    max_travel := pick_travel t,
    halal_pref := some (pick_halal_pref t),
    location_pref := some (pick_location t) }

/-! Claim-side formalisations for the budget-resolution claim (C7). -/

/-- The bound words of C7's stated rule (3), exactly as the claim enumerates
them: "under", "below", "max", "budget", and the Malay equivalents "bawah"
and "sekitar". -/
def claimProximityWords : List String :=
  ["under", "below", "max", "budget", "bawah", "sekitar"]

/-- C7's stated rule (3), following the claim's words: a proximity pattern
pairing one of the bound words with a number. -/
def claimProximitySearch : List Char → Option ℚ
  | [] => none
  | c :: rest =>
    match matchAlt claimProximityWords (c :: rest) with
    | some after =>
      let ds := (after.dropWhile isSpaceChar).takeWhile Char.isDigit
      if ds.isEmpty then claimProximitySearch rest else some (digitsToNat ds : ℚ)
    | none => claimProximitySearch rest

/-- The budget resolution exactly as claim C7 states it: (1) level trigger
mapping cheap to 10, medium to 15, expensive to 25; (2) explicit RM number;
(3) bound word paired with a number; (4) bare number followed by "ringgit";
otherwise null. -/
def claimBudgetRules (text : String) : Option ℚ :=
  let t := lower text
  match synLookup BUDGET_SYNONYMS t with
  | some category => some (budgetValue category)
  | none =>
    match rmSearch t.data with
    | some v => some v
    | none =>
      match claimProximitySearch t.data with
      | some v => some v
      | none => ringgitSearch t.data

/-- Tagged budget resolution rules in the style of spec section 9. -/
inductive BudgetRule
  | LevelMatch
  | ExplicitRm
  | ProximityPattern
  | MalayProximity
  | RinggitSuffix
deriving DecidableEq, Repr

/-- Meaning of one tagged budget rule on lower-cased text. -/
def applyBudgetRule (r : BudgetRule) (t : String) : Option ℚ :=
  match r with
  | .LevelMatch => (synLookup BUDGET_SYNONYMS t).map budgetValue
  | .ExplicitRm => rmSearch t.data
  | .ProximityPattern => nearbySearch t.data
  | .MalayProximity => malaySearch t.data
  | .RinggitSuffix => ringgitSearch t.data

/-- The priority order of the amended claim. -/
def budgetRuleOrder : List BudgetRule :=
  [.LevelMatch, .ExplicitRm, .ProximityPattern, .MalayProximity, .RinggitSuffix]

/-- First rule in priority order that produces a value. -/
def firstBudgetMatch (t : String) : List BudgetRule → Option ℚ
  | [] => none
  | r :: rest =>
    match applyBudgetRule r t with
    | some v => some v
    | none => firstBudgetMatch t rest

/-- Budget resolution by the amended priority-ordered rule list. -/
def resolveBudgetByRules (text : String) : Option ℚ :=
  firstBudgetMatch (lower text) budgetRuleOrder

/-! Concrete data used by witnesses and counterexamples. -/

/-- Preference set produced by the V3 parser when the user asks for halal. -/
def halalOnlyPrefs : PreferenceSet := { halal_pref := some "Halal only" }

/-- An entry whose halal field contains "yes" case-insensitively. -/
def entryHalalYes : CatalogEntry := { name := some "HY", halal := some "Yes" }

/-- An entry whose halal field does not contain "yes". -/
def entryHalalNo : CatalogEntry := { name := some "HN", halal := some "No" }

/-- An entry open on Mondays only. -/
def mondayEntry : CatalogEntry := { name := some "M", days := some "Monday" }

/-- The all-missing preference set (every `.get` returns None). -/
def noPrefs : PreferenceSet := {}

/-- A plain entry with a rating. -/
def simpleEntry : CatalogEntry := { name := some "S", rating := some 4 }

/-- Two entries that differ only in name: identical score and rating. -/
def entryTieA : CatalogEntry := { name := some "A", rating := some 3 }

/-- Second of the two tied entries. -/
def entryTieB : CatalogEntry := { name := some "B", rating := some 3 }

/-- Preferences fixing only the RM 20 budget ceiling. -/
def prefs20 : PreferenceSet := { max_budget := some 20 }

/-- An entry with both spends known. -/
def entrySpend (mn mx : ℚ) : CatalogEntry :=
  { name := some "E", min_spend := some mn, max_spend := some mx }

/-- A ranked row with a given name and total score (all aspect score in one column). -/
def mkScored (nm : String) (sc : ℚ) : ScoredEntry :=
  { entry := { name := some nm }, score_cuisine := sc, score_budget := 0, score_travel := 0,
    score_meal := 0, score_halal := 0, score_location := 0, score_rating := 0, score := sc }

/-- Ranked row scoring 80. -/
def row80 : ScoredEntry := mkScored "R80" 80

/-- Ranked row scoring 65. -/
def row65 : ScoredEntry := mkScored "R65" 65

/-- Ranked row scoring 60. -/
def row60 : ScoredEntry := mkScored "R60" 60

/-- Ranked row scoring 40. -/
def row40 : ScoredEntry := mkScored "R40" 40

/-! Theorems for the claims. -/

/-- C1: the claim says halal_pref = "Halal only" gives +10 on the halal aspect
to entries whose halal field contains "yes" and -20 to the rest. In the code
the halal block fires only when the preference lower-cases to exactly "halal"
(`app_3.py` line 149), which "Halal only" - the only halal-seeking value the
program's own parser produces (line 470) - never does, so the halal aspect is
always 0 for halal_pref = "Halal only". -/
theorem C1_halal_aspect_dead_for_halal_only (p : PreferenceSet)
    (hp : p.halal_pref = some "Halal only") (e : CatalogEntry) :
    (scoreRow p e).score_halal = 0 := by
  show score_halal_of p e = 0
  simp only [score_halal_of, hp, Option.getD_some]
  rfl

/-- C1 witness: the failing input evaluated - an entry with halal "Yes" under
halal_pref "Halal only" receives 0 on the halal aspect, not +10. -/
theorem C1_halal_aspect_dead_witness :
    (scoreRow halalOnlyPrefs entryHalalYes).score_halal = 0 ∧
    (scoreRow halalOnlyPrefs entryHalalNo).score_halal = 0 :=
  ⟨C1_halal_aspect_dead_for_halal_only halalOnlyPrefs rfl entryHalalYes,
   C1_halal_aspect_dead_for_halal_only halalOnlyPrefs rfl entryHalalNo⟩

/-- C2 counterexample: the current day is read from the system clock inside
`filter_open_today` (modelled by the `today_name` argument), not supplied by
the caller of the scoring engine; with availability filtering on, identical
(entries, preferences) inputs give different results on different days, so
the day does influence the result. -/
theorem C2_clock_dependence_counterexample :
    score_restaurants [mondayEntry] noPrefs true "Monday" ≠
      score_restaurants [mondayEntry] noPrefs true "Tuesday" := by
  with_unfolding_all decide

/-- C2 amended: `score_restaurants` is a deterministic pure function of
(entries, preferences, day); when availability filtering is skipped the
result does not depend on the day at all. The day, however, is read from the
clock inside `filter_open_today` rather than passed in by the engine's
caller. -/
theorem C2_deterministic_given_day (df : List CatalogEntry) (p : PreferenceSet)
    (d1 d2 : String) :
    score_restaurants df p false d1 = score_restaurants df p false d2 := rfl

/-- C10: an empty input catalog is returned unchanged immediately
(`app_3.py` lines 66-67), before availability filtering and before any score
or aspect columns are added (the `unscored` constructor carries plain
`CatalogEntry` rows with no score fields), for every preference set. -/
theorem C10_empty_catalog_unscored (p : PreferenceSet) (o : Bool) (d : String) :
    score_restaurants [] p o d = ScoreOutput.unscored [] := rfl

/-- Total score of a scored row is the sum of its seven aspect columns, by
construction in `app_3.py` lines 182-190. -/
theorem scoreRow_sum (p : PreferenceSet) (e : CatalogEntry) :
    (scoreRow p e).score = (scoreRow p e).score_cuisine + (scoreRow p e).score_budget +
      (scoreRow p e).score_travel + (scoreRow p e).score_meal + (scoreRow p e).score_halal +
      (scoreRow p e).score_location + (scoreRow p e).score_rating := rfl

/-- C4: for every row produced by the scoring engine, the seven per-aspect
sub-scores sum exactly to the total score. -/
theorem C4_subscore_sum (df : List CatalogEntry) (p : PreferenceSet) (o : Bool)
    (d : String) (rows : List ScoredEntry)
    (h : score_restaurants df p o d = ScoreOutput.scored rows) :
    ∀ r ∈ rows, r.score = r.score_cuisine + r.score_budget + r.score_travel +
      r.score_meal + r.score_halal + r.score_location + r.score_rating := by
  intro r hr
  rw [score_restaurants] at h
  by_cases hdf : df.isEmpty
  · rw [if_pos hdf] at h; exact absurd h (by simp)
  · rw [if_neg hdf] at h
    injection h with h
    subst h
    rw [sort_values_score_desc, List.mem_reverse] at hr
    have hmem := (List.mergeSort_perm _ _).mem_iff.mp hr
    obtain ⟨e, _, hre⟩ := List.mem_map.mp hmem
    subst hre
    exact scoreRow_sum p e

/-- C4 witness: the invariant instantiated on a concrete one-entry catalog. -/
theorem C4_subscore_sum_witness :
    (scoreRow noPrefs simpleEntry).score = (scoreRow noPrefs simpleEntry).score_cuisine +
      (scoreRow noPrefs simpleEntry).score_budget + (scoreRow noPrefs simpleEntry).score_travel +
      (scoreRow noPrefs simpleEntry).score_meal + (scoreRow noPrefs simpleEntry).score_halal +
      (scoreRow noPrefs simpleEntry).score_location + (scoreRow noPrefs simpleEntry).score_rating :=
  C4_subscore_sum [simpleEntry] noPrefs false "Monday" [scoreRow noPrefs simpleEntry]
    (by with_unfolding_all rfl) (scoreRow noPrefs simpleEntry) (by simp)

/-- C5: with max_budget = 20 and both spends known, the three budget tiers
give exactly +30 for (10, 20), +15 for (15, 25) and -10 for (25, 30) on the
budget aspect, whatever the budget_level (for these spends the "expensive"
penalties never fire: 20, 25, 30 all exceed 0.8 x 20 = 16). -/
theorem C5_budget_tiers (p : PreferenceSet) (hb : p.max_budget = some 20) :
    (∀ e : CatalogEntry, e.min_spend = some 10 → e.max_spend = some 20 →
      (scoreRow p e).score_budget = 30) ∧
    (∀ e : CatalogEntry, e.min_spend = some 15 → e.max_spend = some 25 →
      (scoreRow p e).score_budget = 15) ∧
    (∀ e : CatalogEntry, e.min_spend = some 25 → e.max_spend = some 30 →
      (scoreRow p e).score_budget = -10) := by
  refine ⟨fun e h1 h2 => ?_, fun e h1 h2 => ?_, fun e h1 h2 => ?_⟩ <;>
  · show score_budget_of p e = _
    simp only [score_budget_of, hb, h1, h2]
    by_cases hbl : p.budget_level = some "expensive" <;> simp [hbl] <;> norm_num

/-- C5 witness: the three tier boundaries evaluated on concrete entries. -/
theorem C5_budget_tiers_witness :
    (scoreRow prefs20 (entrySpend 10 20)).score_budget = 30 ∧
    (scoreRow prefs20 (entrySpend 15 25)).score_budget = 15 ∧
    (scoreRow prefs20 (entrySpend 25 30)).score_budget = -10 :=
  ⟨(C5_budget_tiers prefs20 rfl).1 _ rfl rfl,
   (C5_budget_tiers prefs20 rfl).2.1 _ rfl rfl,
   (C5_budget_tiers prefs20 rfl).2.2 _ rfl rfl⟩

/-- C6 counterexample: on four ranked entries scoring 80, 65, 60, 40 (already
in descending order) the selector keeps only the entries scoring at least
80 - 15 = 65, i.e. the 80 and 65 rows - not the 60 row the claim includes
(60 is not within 15 of the top). -/
theorem C6_selector_counterexample :
    selectResults [row80, row65, row60, row40] = [row80, row65] ∧
    selectResults [row80, row65, row60, row40] ≠ [row80, row65, row60] := by
  constructor <;> with_unfolding_all decide

/-- C6 amended: on a non-empty descending-sorted input the selector returns
exactly the entries scoring at least top - 15, truncated to at most 3 (the
single-top fallback in the source is dead: the top row always passes its own
threshold); the empty input yields empty; and on the 80/65/60/40 scenario it
returns exactly the 80 and 65 entries in descending order. -/
theorem C6_selector_threshold :
    selectResults [] = [] ∧
    (∀ (top : ScoredEntry) (rest : List ScoredEntry),
      selectResults (top :: rest) =
        ((top :: rest).filter (fun r => top.score - THRESHOLD_DIFF ≤ r.score)).take 3) ∧
    selectResults [row80, row65, row60, row40] = [row80, row65] := by
  refine ⟨rfl, fun top rest => ?_, by with_unfolding_all decide⟩
  have hp : (decide (top.score - THRESHOLD_DIFF ≤ top.score)) = true := by
    rw [decide_eq_true_eq, THRESHOLD_DIFF]
    linarith
  show (if (((top :: rest).filter (fun r => top.score - THRESHOLD_DIFF ≤ r.score)).take 3).isEmpty
      then (top :: rest).take 1
      else ((top :: rest).filter (fun r => top.score - THRESHOLD_DIFF ≤ r.score)).take 3) = _
  rw [List.filter_cons, hp]
  simp

/-- C3 counterexample: two entries identical in every scored field (equal
score, equal rating) come out of the engine in reversed input order - the
descending sort reverses ties instead of keeping catalog order. -/
theorem C3_stability_counterexample :
    score_restaurants [entryTieA, entryTieB] noPrefs false "Monday" =
      ScoreOutput.scored [scoreRow noPrefs entryTieB, scoreRow noPrefs entryTieA] ∧
    (scoreRow noPrefs entryTieA).score = (scoreRow noPrefs entryTieB).score ∧
    (scoreRow noPrefs entryTieA).entry.rating = (scoreRow noPrefs entryTieB).entry.rating := by
  refine ⟨?_, ?_, ?_⟩ <;> with_unfolding_all decide

/-- C3 amended: the output rows are ordered by non-increasing score (score is
the only sort key - rating is not consulted) and are a permutation of the
scored (and, when requested, availability-filtered) input rows. The relative
order of equal-score rows is not specified by the program (pandas' unstable
sort), and in particular equal score-and-rating rows need not retain input
order: the counterexample shows a tied pair emerging reversed. -/
theorem C3_ordering (df : List CatalogEntry) (p : PreferenceSet) (o : Bool) (d : String)
    (rows : List ScoredEntry)
    (h : score_restaurants df p o d = ScoreOutput.scored rows) :
    rows.Pairwise (fun a b => b.score ≤ a.score) ∧
    rows.Perm ((if o then filter_open_today d df else df).map (scoreRow p)) := by
  have htrans : ∀ a b c : ScoredEntry, (decide (a.score ≤ b.score)) = true →
      (decide (b.score ≤ c.score)) = true → (decide (a.score ≤ c.score)) = true := by
    intro a b c hab hbc
    rw [decide_eq_true_eq] at *
    exact le_trans hab hbc
  have htotal : ∀ a b : ScoredEntry,
      ((decide (a.score ≤ b.score)) || (decide (b.score ≤ a.score))) = true := by
    intro a b
    rw [Bool.or_eq_true, decide_eq_true_eq, decide_eq_true_eq]
    exact le_total _ _
  rw [score_restaurants] at h
  by_cases hdf : df.isEmpty
  · rw [if_pos hdf] at h; exact absurd h (by simp)
  · rw [if_neg hdf] at h
    injection h with h
    subst h
    rw [sort_values_score_desc]
    constructor
    · rw [List.pairwise_reverse]
      have := List.sorted_mergeSort htrans htotal
        ((if o then filter_open_today d df else df).map (scoreRow p))
      exact this.imp (fun {x y} hd => by rw [decide_eq_true_eq] at hd; exact hd)
    · exact (List.reverse_perm _).trans (List.mergeSort_perm _ _)

/-- C3 witness: the amended ordering facts instantiated on a concrete
one-entry catalog. -/
theorem C3_ordering_witness :
    ([scoreRow noPrefs entryTieA].Pairwise
      (fun a b : ScoredEntry => b.score ≤ a.score)) :=
  (C3_ordering [entryTieA] noPrefs false "Monday" [scoreRow noPrefs entryTieA]
    (by with_unfolding_all rfl)).1

/-- C7 counterexample: on the input "around 12" the code's second proximity
pattern fires and yields 12, while the claim's four rules - which do not
include the trigger word "around" - all fail, so the claim's "otherwise
null" clause would apply. -/
theorem C7_budget_rules_counterexample :
    pick_budget "around 12" = some 12 ∧ claimBudgetRules "around 12" = none := by
  constructor <;> with_unfolding_all decide

/-- C7 amended: budget extraction resolves by the first matching rule in the
priority order level trigger, explicit RM, first proximity pattern (under /
below / bawah / max / budget, rejecting numbers followed by a minutes word),
second proximity pattern (bawah / taknak lebih / tak nak lebih / jangan
lebih / around / sekitar), bare number followed by "ringgit", else null. -/
theorem C7_budget_priority_amended (t : String) :
    pick_budget t = resolveBudgetByRules t := by
  unfold pick_budget resolveBudgetByRules budgetRuleOrder
  simp only [firstBudgetMatch, applyBudgetRule]
  rcases h1 : synLookup BUDGET_SYNONYMS (lower t) with _ | c
  · rcases h2 : rmSearch (lower t).data with _ | v1
    · rcases h3 : nearbySearch (lower t).data with _ | v2
      · rcases h4 : malaySearch (lower t).data with _ | v3
        · simp [h1, h2, h3, h4]
          rcases ringgitSearch (lower t).data with _ | v4 <;> rfl
        · simp [h1, h2, h3, h4]
      · simp [h1, h2, h3]
    · simp [h1, h2]
  · simp [h1]

/-- C7 witness: the amended priority resolution evaluated on a concrete
input exercising the level-trigger rule. -/
theorem C7_budget_priority_witness :
    pick_budget "cheap food" = resolveBudgetByRules "cheap food" :=
  C7_budget_priority_amended "cheap food"

/-- C8: the free-text input "cheap halal mamak inside utp" parses to exactly
the claimed preference set (cuisines ["Mamak"], budget level cheap, budget
ceiling 10, halal only, inside UTP, meal "Any", no travel limit), with the
catalog-derived known-location and known-cuisine lists modelled from the
spec. -/
theorem C8_one_shot_scenario :
    parse_one_shot "cheap halal mamak inside utp" =
      { cuisine := some "Mamak", cuisines := some ["Mamak"], max_budget := some 10,
        budget_level := some "cheap", meal_type := some "Any", max_travel := none,
        halal_pref := some "Halal only", location_pref := some "Inside UTP" } := by
  with_unfolding_all decide

/-- A raw row whose name cell is whitespace only: non-null, but empty after
trimming. -/
def wsNameRow : RawRow := { name := some "   ", cuisine := some "Malay" }

/-- C9 counterexample: a row whose name is a whitespace-only string - empty
after trimming but not null - survives the loader, which drops only missing
names (`dropna(subset=["name"])` does not trim). -/
theorem C9_loader_counterexample :
    load_catalog [wsNameRow] = [coerceRow wsNameRow] ∧
    (coerceRow wsNameRow).name = some "   " ∧
    (stripSpaces "   ".data).isEmpty = true := by
  refine ⟨?_, ?_, ?_⟩ <;> with_unfolding_all decide

/-- C9 amended: numeric cells that fail parsing are stored as null (never
zero, and the loader is a total function, so never raising), and the loaded
catalog contains exactly the coerced input rows whose name is non-null - a
whitespace-only name is kept. -/
theorem C9_loader_amended (rows : List RawRow) :
    (∀ e : CatalogEntry, e ∈ load_catalog rows ↔
      ∃ r ∈ rows, r.name.isSome ∧ e = coerceRow r) ∧
    to_numeric (some "not a number") = none ∧
    to_numeric (some "12.5") = some (25 / 2) ∧
    to_numeric none = none := by
  refine ⟨fun e => ?_, by with_unfolding_all decide, by with_unfolding_all decide, rfl⟩
  simp only [load_catalog, List.mem_filter, List.mem_map]
  constructor
  · rintro ⟨⟨r, hr, rfl⟩, hname⟩
    exact ⟨r, hr, by simpa [coerceRow] using hname, rfl⟩
  · rintro ⟨r, hr, hname, rfl⟩
    exact ⟨⟨r, hr, rfl⟩, by simpa [coerceRow] using hname⟩

end MakanSini
